import Mathlib

set_option autoImplicit false

/-!
Verification of the fish-audio SDK transport layer (`src/session.ts`).

The embedding models JavaScript values handled by axios response bodies as
`JValue`, with JS truthiness and member access made explicit.  The response
interceptor, the query-parameter translation of `listModels`, the entity id
normalization and the `close` lifecycle are translated from `session.ts`.
The error classes of `exceptions.ts` and the schema codecs of `schemas.ts`
are referenced from `session.ts` but their files are not among the sources;
where a definition depends on them it is modelled from the specification and
says so in its doc comment.
-/

namespace FishAudio

/-- JavaScript values as they appear in axios request and response bodies.
`undefined` models the JS value `undefined` (the result of reading an absent
member). Numbers are modelled as integers; no claim depends on float
arithmetic. Object fields are an association list with the unique-key
discipline of JS objects. -/
inductive JValue where
  | undefined
  | null
  | bool (b : Bool)
  | num (n : Int)
  | str (s : String)
  | arr (elems : List JValue)
  | obj (fields : List (String × JValue))
  deriving Repr

/-- JS truthiness: `undefined`, `null`, `false`, `0` and `""` are falsy;
arrays and objects are always truthy. -/
def truthy : JValue → Bool
  | .undefined => false
  | .null => false
  | .bool b => b
  | .num n => n != 0
  | .str s => s ≠ ""
  | .arr _ => true
  | .obj _ => true

/-- `typeof v === "object"` in JS: true for `null`, arrays and objects. -/
def typeofObject : JValue → Bool
  | .null => true
  | .arr _ => true
  | .obj _ => true
  | _ => false

/-- `typeof v === "string"`. -/
def typeofString : JValue → Bool
  | .str _ => true
  | _ => false

/-- JS member access `v.k`: reading a named member of anything but an object
with that key yields `undefined`. -/
def getField : JValue → String → JValue
  | .obj fields, k => (fields.lookup k).getD .undefined
  | _, _ => .undefined

/-- JS `a || b`: `b` when `a` is falsy, else `a`. -/
def jsOr (a b : JValue) : JValue :=
  if truthy a then a else b

/-- An HTTP response as seen by the axios response interceptor: numeric
status, status line, and the (already JSON-parsed) body.  An absent body is
`JValue.undefined`. -/
structure HttpResponse where
  status : Nat
  statusText : String
  data : JValue
  deriving Repr

def is2xx (status : Nat) : Bool :=
  200 ≤ status && status < 300

/-- The detail-extraction logic of the response interceptor
(`session.ts` lines 40 to 47): start from the status line; a string body is
used directly; a truthy body of object type yields
`errorData.detail || errorData.message || statusText`. -/
def errorDetail (errorData : JValue) (statusText : String) : JValue :=
  match errorData with
  | .str s => .str s
  | v =>
    if truthy v && typeofObject v then
      jsOr (getField v "detail") (jsOr (getField v "message") (.str statusText))
    else
      .str statusText

/-- The closed Typed Error taxonomy.  Modelled from the spec: the classes
live in `exceptions.ts`, which is referenced from `session.ts` but is not
among the sources.  Spec section 4.4 lists authentication, payment, not
found, generic HTTP, streaming protocol and decode classifications, each a
distinct narrowly-scoped type carrying its numeric status where
applicable; the README catch example matches `AuthenticationError`,
`PaymentRequiredError`, `NotFoundError`, `HttpCodeError` and
`WebSocketError` as distinct classes. -/
inductive FishError where
  | authenticationError (status : Nat) (detail : JValue)
  | paymentRequiredError (status : Nat) (detail : JValue)
  | notFoundError (status : Nat) (detail : JValue)
  | httpCodeError (status : Nat) (detail : JValue)
  | webSocketError (detail : JValue)
  | decodeError (detail : String)
  deriving Repr

/-- The classification tags of the taxonomy, used to state that two raised
errors fall in distinct classes. -/
inductive ErrClass where
  | auth
  | payment
  | notFound
  | generic
  | webSocket
  | decode
  deriving Repr, DecidableEq

def FishError.classOf : FishError → ErrClass
  | .authenticationError _ _ => .auth
  | .paymentRequiredError _ _ => .payment
  | .notFoundError _ _ => .notFound
  | .httpCodeError _ _ => .generic
  | .webSocketError _ => .webSocket
  | .decodeError _ => .decode

/-- The numeric HTTP status carried by an error, when applicable. -/
def FishError.statusOf : FishError → Option Nat
  | .authenticationError s _ => some s
  | .paymentRequiredError s _ => some s
  | .notFoundError s _ => some s
  | .httpCodeError s _ => some s
  | .webSocketError _ => none
  | .decodeError _ => none

/-- The human-readable detail carried by an error. -/
def FishError.detailOf : FishError → JValue
  | .authenticationError _ d => d
  | .paymentRequiredError _ d => d
  | .notFoundError _ d => d
  | .httpCodeError _ d => d
  | .webSocketError d => d
  | .decodeError d => .str d

/-- Modelled from the spec: construction of the HTTP-status error raised by
the interceptor.  `session.ts` line 49 constructs `HttpCodeError(status,
detail)`; `exceptions.ts` (not among the sources) classifies by status per
spec section 4.4: 401 is an authentication failure, 402 a payment failure,
404 a not-found failure, and any other status the generic HTTP-status
failure, each preserving the numeric status. -/
def mkHttpCodeError (status : Nat) (detail : JValue) : FishError :=
  if status = 401 then .authenticationError status detail
  else if status = 402 then .paymentRequiredError status detail
  else if status = 404 then .notFoundError status detail
  else .httpCodeError status detail

/-- The error the interceptor raises for a non-2xx response
(`session.ts` lines 37 to 55). -/
def raisedError (r : HttpResponse) : FishError :=
  mkHttpCodeError r.status (errorDetail r.data r.statusText)

/-- The response interceptor installed in the Session constructor
(`session.ts` lines 35 to 56): a 2xx response passes through unchanged; a
non-2xx response is rejected by axios and converted into a Typed Error
carrying the status and the extracted detail. -/
def interceptResponse (r : HttpResponse) : Except FishError HttpResponse :=
  if is2xx r.status then .ok r
  else .error (raisedError r)

/-- The state of one Node keep-alive agent.  `destroy()` on a Node
`http.Agent` tears down every pooled socket and is a no-op on an agent with
no live sockets; the agent itself stays usable afterwards and opens new
sockets on demand for later requests. -/
structure AgentState where
  destroyed : Bool
  liveSockets : List Nat
  deriving Repr, DecidableEq

/-- `agent.destroy()`: returns the sockets released by this call together
with the new agent state. -/
def AgentState.destroy (a : AgentState) : List Nat × AgentState :=
  (a.liveSockets, { destroyed := true, liveSockets := [] })

/-- The Session state (`session.ts` lines 9 to 32): the identity triple
captured by the axios instance configuration, plus the two keep-alive
agents.  The identity fields are private and written only in the
constructor. -/
structure Session where
  apiKey : String
  baseUrl : String
  developerId : String
  httpAgent : AgentState
  httpsAgent : AgentState
  deriving Repr

/-- The Session constructor with its default arguments
(`session.ts` lines 14 to 32). -/
def Session.make (apiKey baseUrl developerId : String) : Session :=
  { apiKey := apiKey
    baseUrl := baseUrl
    developerId := developerId
    httpAgent := { destroyed := false, liveSockets := [] }
    httpsAgent := { destroyed := false, liveSockets := [] } }

/-- The default headers installed on the axios instance
(`session.ts` lines 25 to 28). -/
def Session.defaultHeaders (s : Session) : List (String × String) :=
  [("Authorization", "Bearer " ++ s.apiKey), ("developer-id", s.developerId)]

/-- `close()` (`session.ts` lines 63 to 66): destroys both keep-alive
agents.  Returns the sockets each destroy call released together with the
new session state.  Nothing else of the session is touched and no failure
outcome exists. -/
def Session.close (s : Session) : (List Nat × List Nat) × Session :=
  let d1 := s.httpAgent.destroy
  let d2 := s.httpsAgent.destroy
  ((d1.1, d2.1), { s with httpAgent := d1.2, httpsAgent := d2.2 })

/-- Request bodies, tagged by the encoding the call chose.  `msgpackBody`
stands for the bytes `msgpack.encode(payload)` of the binary encoding,
`jsonBody` for the textual JSON serialization of the payload.  Multipart
form bodies are an external collaborator and stay opaque. -/
inductive ReqBody where
  | empty
  | jsonBody (payload : JValue)
  | msgpackBody (payload : JValue)
  | formDataBody
  deriving Repr

/-- One outbound HTTP request as handed to axios: the effective headers are
resolved per key by `headerLookup`, with entries earlier in the list taking
precedence (per-request headers override the instance defaults). -/
structure OutboundRequest where
  method : String
  path : String
  headers : List (String × String)
  query : List (String × JValue)
  body : ReqBody
  deriving Repr

/-- The effective value of one header of an outbound request: first match
wins. -/
def headerLookup (hs : List (String × String)) (k : String) : Option String :=
  hs.lookup k

/-- The outbound request of `tts` (`session.ts` lines 82 to 91): a JSON
body posted to `/v1/tts` with `Content-Type: application/json`, with the
caller-supplied additional headers spread after the content type (so they
take precedence over it, and over the instance defaults). -/
def Session.ttsRequest (s : Session) (payload : JValue)
    (additionalHeaders : List (String × String)) : OutboundRequest :=
  { method := "POST"
    path := "/v1/tts"
    headers := additionalHeaders ++ [("Content-Type", "application/json")] ++ s.defaultHeaders
    query := []
    body := .jsonBody payload }

/-- The outbound request of `asr` (`session.ts` lines 108 to 115): the
payload is encoded with `msgpack.encode` and posted to `/v1/asr` with
`Content-Type: application/msgpack`. -/
def Session.asrRequest (s : Session) (payload : JValue) : OutboundRequest :=
  { method := "POST"
    path := "/v1/asr"
    headers := [("Content-Type", "application/msgpack")] ++ s.defaultHeaders
    query := []
    body := .msgpackBody payload }

/-- The caller-side parameter object of `listModels`.  The typed fields are
the nine properties the translation in `session.ts` lines 131 to 139 reads;
`extra` carries any further properties of the object (TypeScript structural
typing admits them), which the translation never reads. -/
structure ModelListParams where
  pageSize : Option Int := none
  pageNumber : Option Int := none
  title : Option String := none
  tag : Option (List String) := none
  self : Option Bool := none
  authorId : Option String := none
  language : Option (List String) := none
  titleLanguage : Option String := none
  sortBy : Option String := none
  extra : List (String × JValue) := []
  deriving Repr

/-- One conditional assignment `if (params.x !== undefined) apiParams.y =
params.x` contributes one entry to the wire query object when the parameter
is defined and nothing otherwise. -/
def optEntry (k : String) (v : Option JValue) : List (String × JValue) :=
  match v with
  | some x => [(k, x)]
  | none => []

/-- The query-parameter translation of `listModels`
(`session.ts` lines 128 to 139), in the assignment order of the source. -/
def toApiParams (params : ModelListParams) : List (String × JValue) :=
  optEntry "page_size" (params.pageSize.map .num) ++
  optEntry "page_number" (params.pageNumber.map .num) ++
  optEntry "title" (params.title.map .str) ++
  optEntry "tag" (params.tag.map (fun v => .arr (v.map .str))) ++
  optEntry "self" (params.self.map .bool) ++
  optEntry "author_id" (params.authorId.map .str) ++
  optEntry "language" (params.language.map (fun v => .arr (v.map .str))) ++
  optEntry "title_language" (params.titleLanguage.map .str) ++
  optEntry "sort_by" (params.sortBy.map .str)

/-- The wire names the translation can emit. -/
def wireNames : List String :=
  ["page_size", "page_number", "title", "tag", "self", "author_id",
   "language", "title_language", "sort_by"]

/-- JS object update `{ ...fields, k: v }`: when the key exists its value is
replaced in place, otherwise the key is appended last. -/
def setField (fields : List (String × JValue)) (k : String) (v : JValue) :
    List (String × JValue) :=
  if (fields.lookup k).isSome then
    fields.map (fun kv => if kv.1 = k then (k, v) else kv)
  else
    fields ++ [(k, v)]

/-- The entity id normalization `{ ...item, id: item._id || item.id }`
applied by `listModels`, `getModel` and `createModel`
(`session.ts` lines 144 to 147, 157 to 160 and 196 to 199), on the fields
of an object payload. -/
def normalizeFields (fields : List (String × JValue)) :
    List (String × JValue) :=
  setField fields "id"
    (jsOr ((fields.lookup "_id").getD .undefined) ((fields.lookup "id").getD .undefined))

/-- The id normalization on a wire payload value: the endpoints return JSON
objects; a non-object value has no named fields and both member reads give
`undefined`. -/
def normalizeEntity : JValue → JValue
  | .obj fields => .obj (normalizeFields fields)
  | v => .obj [("id", jsOr (getField v "_id") (getField v "id"))]

/-- The request builder of `listModels` (`session.ts` line 141): a GET to
`/model` with the translated query and no per-call headers. -/
def Session.listModelsRequest (s : Session) (params : ModelListParams) :
    OutboundRequest :=
  { method := "GET"
    path := "/model"
    headers := s.defaultHeaders
    query := toApiParams params
    body := .empty }

/-- The request builder of `getModel` (`session.ts` line 156). -/
def Session.getModelRequest (s : Session) (modelId : String) : OutboundRequest :=
  { method := "GET"
    path := "/model/" ++ modelId
    headers := s.defaultHeaders
    query := []
    body := .empty }

/-- The request builder of `createModel` (`session.ts` lines 191 to 195):
a multipart POST whose headers spread `formData.getHeaders()` over the
instance defaults; the multipart construction itself is an external
collaborator and stays opaque. -/
def Session.createModelRequest (s : Session) : OutboundRequest :=
  { method := "POST"
    path := "/model"
    headers := [("content-type", "multipart/form-data")] ++ s.defaultHeaders
    query := []
    body := .formDataBody }

/-- The request builder of `deleteModel` (`session.ts` line 203). -/
def Session.deleteModelRequest (s : Session) (modelId : String) : OutboundRequest :=
  { method := "DELETE"
    path := "/model/" ++ modelId
    headers := s.defaultHeaders
    query := []
    body := .empty }

/-- The request builder of `updateModel` (`session.ts` lines 221 to 225). -/
def Session.updateModelRequest (s : Session) (modelId : String) : OutboundRequest :=
  { method := "PATCH"
    path := "/model/" ++ modelId
    headers := [("content-type", "multipart/form-data")] ++ s.defaultHeaders
    query := []
    body := .formDataBody }

/-- The request builder of `getApiCredit` (`session.ts` lines 229 to 235). -/
def Session.getApiCreditRequest (s : Session) (checkFreeCredit : Option Bool) :
    OutboundRequest :=
  { method := "GET"
    path := "/wallet/self/api-credit"
    headers := s.defaultHeaders
    query := optEntry "check_free_credit" (checkFreeCredit.map .bool)
    body := .empty }

/-- The request builder of `getPackage` (`session.ts` line 240). -/
def Session.getPackageRequest (s : Session) : OutboundRequest :=
  { method := "GET"
    path := "/wallet/self/package"
    headers := s.defaultHeaders
    query := []
    body := .empty }

/-- A peer: maps each outbound request to the HTTP response it produces.
One request and response exchange through the axios instance applies the
response interceptor to the response of the peer.  The request path of
`session.ts` never consults the agent state: `close()` only destroys
pooled sockets, and axios opens new sockets on demand for any later
request. -/
def exchange (req : OutboundRequest) (peer : OutboundRequest → HttpResponse) :
    Except FishError HttpResponse :=
  interceptResponse (peer req)

/-- The full `getModel` call (`session.ts` lines 155 to 161): issues the
GET and normalizes the id of the returned entity. -/
def Session.getModelCall (s : Session) (modelId : String)
    (peer : OutboundRequest → HttpResponse) : Except FishError JValue :=
  match exchange (s.getModelRequest modelId) peer with
  | .error e => .error e
  | .ok r => .ok (normalizeEntity r.data)

/-- The items member of a paginated response body; the data contract
guarantees an array. -/
def itemsOf (data : JValue) : List JValue :=
  match getField data "items" with
  | .arr xs => xs
  | _ => []

/-- The full `listModels` call (`session.ts` lines 127 to 153): issues the
GET with the translated query and returns the total together with the
items, each item with its id normalized. -/
def Session.listModelsCall (s : Session) (params : ModelListParams)
    (peer : OutboundRequest → HttpResponse) :
    Except FishError (JValue × List JValue) :=
  match exchange (s.listModelsRequest params) peer with
  | .error e => .error e
  | .ok r => .ok (getField r.data "total", (itemsOf r.data).map normalizeEntity)

/-- The full `createModel` call (`session.ts` lines 163 to 200): posts the
multipart body and normalizes the id of the returned entity. -/
def Session.createModelCall (s : Session)
    (peer : OutboundRequest → HttpResponse) : Except FishError JValue :=
  match exchange s.createModelRequest peer with
  | .error e => .error e
  | .ok r => .ok (normalizeEntity r.data)

/-- The recognition result (spec section 3): transcript text, total
duration and the timed segments.  Duration and segments are carried as the
decoded JSON values; no claim depends on their numeric content. -/
structure ASRResponse where
  text : String
  duration : JValue
  segments : List JValue
  deriving Repr

/-- Modelled from the spec: `ASRResponse.fromJSON` lives in `schemas.ts`,
which is referenced from `session.ts` but is not among the sources.  Spec
section 4.3: decoding a malformed payload must not crash the call path and
raises a Typed Error with a decode-failure classification distinct from the
HTTP-status errors.  A payload is well formed when it is an object carrying
the section 3 recognition-result fields: a transcript string, a duration,
and a segments array. -/
def ASRResponse.fromJSON (v : JValue) : Except FishError ASRResponse :=
  match v with
  | .obj fields =>
    match fields.lookup "text", fields.lookup "duration", fields.lookup "segments" with
    | some (.str t), some d, some (.arr segs) => .ok ⟨t, d, segs⟩
    | _, _, _ => .error (.decodeError "malformed recognition payload")
  | _ => .error (.decodeError "malformed recognition payload")

/-- Well-formedness of an inbound recognition payload, stated from the data
model of spec section 3. -/
def wellFormedASR (v : JValue) : Bool :=
  match v with
  | .obj fields =>
    match fields.lookup "text", fields.lookup "duration", fields.lookup "segments" with
    | some (.str _), some _, some (.arr _) => true
    | _, _, _ => false
  | _ => false

/-- The full `asr` call (`session.ts` lines 106 to 125): posts the
msgpack-encoded payload, decodes a successful response and rethrows any
error after logging it. -/
def Session.asrCall (s : Session) (payload : JValue)
    (peer : OutboundRequest → HttpResponse) : Except FishError ASRResponse :=
  match exchange (s.asrRequest payload) peer with
  | .error e => .error e
  | .ok r => ASRResponse.fromJSON r.data

/-- `Buffer.from(chunk)` copies the bytes of a chunk; as a value it is the
same byte sequence. -/
def bufferFrom (chunk : List Nat) : List Nat :=
  chunk

/-- The streaming loop of `tts` (`session.ts` lines 93 to 95): each chunk
arriving on the response stream is wrapped in `Buffer.from` and yielded to
the caller, in arrival order, one chunk per arrival. -/
def ttsStream : List (List Nat) → List (List Nat)
  | [] => []
  | c :: rest => bufferFrom c :: ttsStream rest

/-- The full `tts` call (`session.ts` lines 74 to 104): posts the JSON body
and yields the chunk sequence of the response stream; on a rejected
response the Typed Error propagates. -/
def Session.ttsCall (s : Session) (payload : JValue)
    (additionalHeaders : List (String × String))
    (peer : OutboundRequest → HttpResponse)
    (peerChunks : List (List Nat)) : Except FishError (List (List Nat)) :=
  match exchange (s.ttsRequest payload additionalHeaders) peer with
  | .error e => .error e
  | .ok _ => .ok (ttsStream peerChunks)

/-- The first truthy value of a named field, when the object has one. -/
def truthyField (fields : List (String × JValue)) (k : String) : Option JValue :=
  match fields.lookup k with
  | some v => if truthy v then some v else none
  | none => none

/-- The amended detail rule, written from the amended claim for comparison
with the extraction of the source: a string body is used directly, even
when empty; a body that is an object yields the first truthy among its
detail field, its message field and the status line; any other body falls
back to the status line. -/
def detailSpec (body : JValue) (statusLine : String) : JValue :=
  match body with
  | .str s => .str s
  | .obj fields =>
    (truthyField fields "detail").getD
      ((truthyField fields "message").getD (.str statusLine))
  | _ => .str statusLine

/-- A detail that is a non-empty string, as claimed of every raised
HTTP-status error. -/
def nonEmptyStrDetail (e : FishError) : Prop :=
  ∃ s, e.detailOf = .str s ∧ s ≠ ""

/-- A peer that accepts every request and returns one model entity; used to
exercise the client after `close()`. -/
def okPeer : OutboundRequest → HttpResponse :=
  fun _ => ⟨200, "OK", .obj [("_id", .str "m1")]⟩

/-- A peer that accepts every request with a 2xx status but answers with a
body that is not a recognition result. -/
def malformedPeer : OutboundRequest → HttpResponse :=
  fun _ => ⟨200, "OK", .null⟩

/-- The claimed behaviour of a closed client: every request through it
fails. The taxonomy would have to carry a client-closed classification for
this; the embedding shows the call path never produces one. -/
def failsAfterClose (s : Session) (peer : OutboundRequest → HttpResponse) : Prop :=
  ∀ modelId, ∃ e, (s.close.2).getModelCall modelId peer = .error e

/-- One outbound request per operation of the Session, enumerating every
operation of `session.ts`. -/
def opRequests (s : Session) (payload : JValue)
    (additionalHeaders : List (String × String)) (params : ModelListParams)
    (modelId : String) (checkFreeCredit : Option Bool) : List OutboundRequest :=
  [s.ttsRequest payload additionalHeaders,
   s.asrRequest payload,
   s.listModelsRequest params,
   s.getModelRequest modelId,
   s.createModelRequest,
   s.deleteModelRequest modelId,
   s.updateModelRequest modelId,
   s.getApiCreditRequest checkFreeCredit,
   s.getPackageRequest]

/-! ## Helper lemmas -/

theorem lookup_append {α β : Type} [BEq α] (l r : List (α × β)) (q : α) :
    (l ++ r).lookup q = ((l.lookup q).orElse fun _ => r.lookup q) := by
  induction l with
  | nil => simp [List.lookup]
  | cons kv t ih =>
    cases hq : q == kv.1 <;>
      simp [List.lookup, hq, ih, Option.orElse]

theorem lookup_optEntry_self (k : String) (v : Option JValue) :
    (optEntry k v).lookup k = v := by
  cases v <;> simp [optEntry, List.lookup]

theorem lookup_optEntry_ne (q k : String) (v : Option JValue) (h : q ≠ k) :
    (optEntry k v).lookup q = none := by
  have hb : (q == k) = false := beq_eq_false_iff_ne.mpr h
  cases v <;> simp [optEntry, List.lookup, hb]

theorem keys_optEntry (k : String) (v : Option JValue) :
    (optEntry k v).map Prod.fst = if v.isSome then [k] else [] := by
  cases v <;> rfl

theorem lookup_map_replace (fields : List (String × JValue)) (k : String) (v : JValue)
    (h : (fields.lookup k).isSome) :
    (fields.map (fun kv => if kv.1 = k then (k, v) else kv)).lookup k = some v := by
  induction fields with
  | nil => simp [List.lookup] at h
  | cons kv t ih =>
    simp only [List.map_cons]
    by_cases hk : kv.1 = k
    · rw [if_pos hk]
      simp [List.lookup]
    · rw [if_neg hk]
      have hb : (k == kv.1) = false := beq_eq_false_iff_ne.mpr fun he => hk he.symm
      simp only [List.lookup, hb]
      apply ih
      simpa only [List.lookup, hb] using h

theorem lookup_map_replace_ne (fields : List (String × JValue)) (k q : String)
    (v : JValue) (h : q ≠ k) :
    (fields.map (fun kv => if kv.1 = k then (k, v) else kv)).lookup q =
      fields.lookup q := by
  have hb : (q == k) = false := beq_eq_false_iff_ne.mpr h
  induction fields with
  | nil => rfl
  | cons kv t ih =>
    simp only [List.map_cons]
    by_cases hk : kv.1 = k
    · rw [if_pos hk]
      have hbq : (q == kv.1) = false := by rw [hk]; exact hb
      simp only [List.lookup, hb, hbq]
      exact ih
    · rw [if_neg hk]
      simp only [List.lookup]
      cases hq : q == kv.1 <;> simp [hq, ih]

theorem lookup_setField_self (fields : List (String × JValue)) (k : String)
    (v : JValue) :
    (setField fields k v).lookup k = some v := by
  unfold setField
  split
  · rename_i hsome
    exact lookup_map_replace fields k v hsome
  · rename_i hnone
    rw [lookup_append]
    have hn : fields.lookup k = none := by
      cases hv : fields.lookup k
      · rfl
      · simp [hv] at hnone
    simp [hn, List.lookup, Option.orElse]

theorem lookup_setField_ne (fields : List (String × JValue)) (k q : String)
    (v : JValue) (h : q ≠ k) :
    (setField fields k v).lookup q = fields.lookup q := by
  have hb : (q == k) = false := beq_eq_false_iff_ne.mpr h
  unfold setField
  split
  · exact lookup_map_replace_ne fields k q v h
  · rw [lookup_append]
    cases hq : fields.lookup q <;> simp [hq, List.lookup, hb, Option.orElse]

theorem normalizeFields_lookup_id (fields : List (String × JValue)) :
    (normalizeFields fields).lookup "id" =
      some (jsOr ((fields.lookup "_id").getD .undefined)
        ((fields.lookup "id").getD .undefined)) :=
  lookup_setField_self fields "id" _

theorem errorDetail_eq_detailSpec (data : JValue) (st : String) :
    errorDetail data st = detailSpec data st := by
  have hu : truthy JValue.undefined = false := rfl
  cases data with
  | obj fields =>
    simp only [errorDetail, detailSpec, show truthy (.obj fields) = true from rfl,
      show typeofObject (.obj fields) = true from rfl, Bool.and_self, if_true,
      getField, truthyField]
    cases hd : fields.lookup "detail" with
    | none =>
      cases hm : fields.lookup "message" with
      | none => simp [jsOr, hu]
      | some w => cases hw : truthy w <;> simp [jsOr, hu, hw]
    | some v =>
      cases hv : truthy v with
      | false =>
        cases hm : fields.lookup "message" with
        | none => simp [jsOr, hu, hv]
        | some w => cases hw : truthy w <;> simp [jsOr, hv, hw]
      | true => simp [jsOr, hv]
  | bool b => simp [errorDetail, detailSpec, typeofObject, Bool.and_false]
  | num n => simp [errorDetail, detailSpec, typeofObject, Bool.and_false]
  | _ => rfl

/-! ## C1 -/

/-- C1: for a response with status 401, 402 or 404, the interceptor raises
the matching classification of the taxonomy — authentication, payment and
not-found failures respectively — each a distinct narrowly-scoped type,
with the numeric status preserved on the raised error. -/
theorem C1_status_error_taxonomy (statusText : String) (data : JValue) :
    interceptResponse ⟨401, statusText, data⟩ =
      .error (.authenticationError 401 (errorDetail data statusText)) ∧
    interceptResponse ⟨402, statusText, data⟩ =
      .error (.paymentRequiredError 402 (errorDetail data statusText)) ∧
    interceptResponse ⟨404, statusText, data⟩ =
      .error (.notFoundError 404 (errorDetail data statusText)) ∧
    (FishError.authenticationError 401 (errorDetail data statusText)).statusOf = some 401 ∧
    (FishError.paymentRequiredError 402 (errorDetail data statusText)).statusOf = some 402 ∧
    (FishError.notFoundError 404 (errorDetail data statusText)).statusOf = some 404 ∧
    (FishError.authenticationError 401 (errorDetail data statusText)).classOf ≠
      (FishError.paymentRequiredError 402 (errorDetail data statusText)).classOf ∧
    (FishError.authenticationError 401 (errorDetail data statusText)).classOf ≠
      (FishError.notFoundError 404 (errorDetail data statusText)).classOf ∧
    (FishError.paymentRequiredError 402 (errorDetail data statusText)).classOf ≠
      (FishError.notFoundError 404 (errorDetail data statusText)).classOf := by
  refine ⟨rfl, rfl, rfl, rfl, rfl, rfl, ?_, ?_, ?_⟩ <;>
    simp [FishError.classOf]

theorem C1_status_error_taxonomy_witness :
    interceptResponse ⟨401, "Unauthorized", .undefined⟩ =
      .error (.authenticationError 401 (errorDetail .undefined "Unauthorized")) ∧
    interceptResponse ⟨402, "Payment Required", .undefined⟩ =
      .error (.paymentRequiredError 402 (errorDetail .undefined "Payment Required")) ∧
    interceptResponse ⟨404, "Not Found", .undefined⟩ =
      .error (.notFoundError 404 (errorDetail .undefined "Not Found")) :=
  ⟨(C1_status_error_taxonomy "Unauthorized" .undefined).1,
    (C1_status_error_taxonomy "Payment Required" .undefined).2.1,
    (C1_status_error_taxonomy "Not Found" .undefined).2.2.1⟩

/-! ## C3 -/

/-- C3 counterexample: a 500 response whose body is the empty string.  The
source uses a string body directly as the detail, so the raised error
carries the empty string — the claimed non-empty detail does not hold. -/
theorem C3_counterexample :
    raisedError ⟨500, "Internal Server Error", .str ""⟩ =
      .httpCodeError 500 (.str "") ∧
    ¬ nonEmptyStrDetail (raisedError ⟨500, "Internal Server Error", .str ""⟩) := by
  refine ⟨rfl, ?_⟩
  rintro ⟨s, hs, hne⟩
  simp only [show raisedError ⟨500, "Internal Server Error", .str ""⟩ =
    .httpCodeError 500 (.str "") from rfl, FishError.detailOf, JValue.str.injEq] at hs
  exact hne hs.symm

/-- C3 amended: for a non-2xx status other than 401, 402 and 404 the
interceptor raises the generic HTTP-status error carrying exactly that
numeric status; the detail is the string body when the body is a string
(possibly empty), else for an object body the first truthy of its detail
field, its message field and the status line, else the status line. -/
theorem C3_generic_http_error (status : Nat) (statusText : String) (data : JValue)
    (h2 : is2xx status = false)
    (h : status ≠ 401 ∧ status ≠ 402 ∧ status ≠ 404) :
    interceptResponse ⟨status, statusText, data⟩ =
      .error (.httpCodeError status (detailSpec data statusText)) ∧
    (FishError.httpCodeError status (detailSpec data statusText)).statusOf = some status ∧
    (FishError.httpCodeError status (detailSpec data statusText)).classOf = .generic := by
  obtain ⟨h1, h4, h5⟩ := h
  refine ⟨?_, rfl, rfl⟩
  simp [interceptResponse, h2, raisedError, mkHttpCodeError, h1, h4, h5,
    errorDetail_eq_detailSpec]

theorem C3_generic_http_error_witness :
    is2xx 500 = false ∧
    ((500 : Nat) ≠ 401 ∧ (500 : Nat) ≠ 402 ∧ (500 : Nat) ≠ 404) ∧
    (interceptResponse ⟨500, "Internal Server Error", .null⟩ =
        .error (.httpCodeError 500 (detailSpec .null "Internal Server Error")) ∧
      (FishError.httpCodeError 500 (detailSpec .null "Internal Server Error")).statusOf =
        some 500 ∧
      (FishError.httpCodeError 500 (detailSpec .null "Internal Server Error")).classOf =
        .generic) :=
  ⟨by decide, ⟨by decide, by decide, by decide⟩,
    C3_generic_http_error 500 "Internal Server Error" .null (by decide)
      ⟨by decide, by decide, by decide⟩⟩

/-! ## C2 -/

/-- C2 counterexample: a client that was closed still serves a request and
returns the entity when the peer answers 2xx — the call does not fail with
any terminal client-closed condition. -/
theorem C2_counterexample :
    ((Session.make "key" "https://api.fish.audio" "dev").close.2).getModelCall
        "m1" okPeer =
      .ok (.obj [("_id", .str "m1"), ("id", .str "m1")]) ∧
    ¬ failsAfterClose (Session.make "key" "https://api.fish.audio" "dev") okPeer := by
  have hres : ((Session.make "key" "https://api.fish.audio" "dev").close.2).getModelCall
      "m1" okPeer = .ok (.obj [("_id", .str "m1"), ("id", .str "m1")]) := by
    rfl
  refine ⟨hres, ?_⟩
  intro hfail
  obtain ⟨e, he⟩ := hfail "m1"
  rw [hres] at he
  exact Except.noConfusion he

/-- C2 amended: `close()` destroys the pooled sockets of the keep-alive
agents but records no closed condition; the request path never consults the
agent state, so every operation issued after `close()` behaves exactly as
before it (axios opens fresh connections on demand) instead of failing
fast. -/
theorem C2_requests_unaffected_by_close (s : Session) (modelId : String)
    (payload : JValue) (params : ModelListParams)
    (additionalHeaders : List (String × String))
    (peer : OutboundRequest → HttpResponse) (peerChunks : List (List Nat)) :
    (s.close.2).getModelCall modelId peer = s.getModelCall modelId peer ∧
    (s.close.2).asrCall payload peer = s.asrCall payload peer ∧
    (s.close.2).listModelsCall params peer = s.listModelsCall params peer ∧
    (s.close.2).ttsCall payload additionalHeaders peer peerChunks =
      s.ttsCall payload additionalHeaders peer peerChunks ∧
    (s.close.2).createModelCall peer = s.createModelCall peer ∧
    (s.close.2).defaultHeaders = s.defaultHeaders :=
  ⟨rfl, rfl, rfl, rfl, rfl, rfl⟩

/-! ## C8 -/

/-- C8: `close()` is idempotent and releases the pooled sockets at most
once: closing a closed session leaves the state unchanged and releases no
further sockets.  `close` is a total function of the state — destroying a
Node agent has no failure outcome, so neither call can raise. -/
theorem C8_close_idempotent (s : Session) :
    (s.close.2).close.2 = s.close.2 ∧
    (s.close.2).close.1 = ([], []) ∧
    (s.close.2).httpAgent.destroyed = true ∧
    (s.close.2).httpsAgent.destroyed = true :=
  ⟨rfl, rfl, rfl, rfl⟩

/-! ## C9 -/

/-- C9: the lazy sequence `tts` yields contains exactly the chunks the peer
produced, in order, with no reordering, deduplication or loss — for any
number of chunks, zero included — so concatenating the yielded chunks
reconstructs the byte stream of the peer exactly. -/
theorem C9_stream_order_preserving (peerChunks : List (List Nat)) :
    ttsStream peerChunks = peerChunks ∧
    (ttsStream peerChunks).flatten = peerChunks.flatten ∧
    ttsStream [] = [] := by
  have h : ∀ l : List (List Nat), ttsStream l = l := by
    intro l
    induction l with
    | nil => rfl
    | cons c rest ih => simp [ttsStream, bufferFrom, ih]
  exact ⟨h peerChunks, by rw [h], rfl⟩

/-! ## C10 -/

/-- C10: the entity returned by `listModels`, `getModel` and `createModel`
has its id normalized: a truthy `_id` of the wire payload becomes the id;
otherwise the id is the id of the wire payload (`undefined` when absent);
every other field of the payload is passed through unchanged.  The three
operations apply one and the same normalization to the payload. -/
theorem C10_id_normalization (fields : List (String × JValue)) :
    (∀ v, fields.lookup "_id" = some v → truthy v = true →
      (normalizeFields fields).lookup "id" = some v) ∧
    ((∀ v, fields.lookup "_id" = some v → truthy v = false) →
      (normalizeFields fields).lookup "id" =
        some ((fields.lookup "id").getD .undefined)) ∧
    (∀ k, k ≠ "id" → (normalizeFields fields).lookup k = fields.lookup k) ∧
    normalizeEntity (.obj fields) = .obj (normalizeFields fields) ∧
    (∀ s : Session, ∀ modelId : String, ∀ peer : OutboundRequest → HttpResponse,
      is2xx (peer (s.getModelRequest modelId)).status = true →
      s.getModelCall modelId peer =
        .ok (normalizeEntity (peer (s.getModelRequest modelId)).data)) ∧
    (∀ s : Session, ∀ peer : OutboundRequest → HttpResponse,
      is2xx (peer s.createModelRequest).status = true →
      s.createModelCall peer =
        .ok (normalizeEntity (peer s.createModelRequest).data)) ∧
    (∀ s : Session, ∀ params : ModelListParams,
      ∀ peer : OutboundRequest → HttpResponse,
      is2xx (peer (s.listModelsRequest params)).status = true →
      s.listModelsCall params peer =
        .ok (getField (peer (s.listModelsRequest params)).data "total",
          (itemsOf (peer (s.listModelsRequest params)).data).map normalizeEntity)) := by
  refine ⟨?_, ?_, ?_, rfl, ?_, ?_, ?_⟩
  · intro v hv htr
    rw [normalizeFields_lookup_id]
    simp [hv, jsOr, htr]
  · intro hfalsy
    rw [normalizeFields_lookup_id]
    cases hv : fields.lookup "_id" with
    | none => simp [jsOr, show truthy JValue.undefined = false from rfl]
    | some v => simp [jsOr, hfalsy v hv]
  · intro k hk
    exact lookup_setField_ne fields "id" k _ hk
  · intro s modelId peer h2
    simp [Session.getModelCall, exchange, interceptResponse, h2]
  · intro s peer h2
    simp [Session.createModelCall, exchange, interceptResponse, h2]
  · intro s params peer h2
    simp [Session.listModelsCall, exchange, interceptResponse, h2]

theorem C10_id_normalization_witness :
    (normalizeFields [("_id", .str "abc"), ("id", .str "xyz"), ("title", .str "t")]).lookup
        "id" = some (.str "abc") ∧
    (normalizeFields [("_id", .str "abc"), ("id", .str "xyz"), ("title", .str "t")]).lookup
        "title" = some (.str "t") :=
  ⟨(C10_id_normalization [("_id", .str "abc"), ("id", .str "xyz"), ("title", .str "t")]).1
      (.str "abc") rfl rfl,
    (C10_id_normalization [("_id", .str "abc"), ("id", .str "xyz"), ("title", .str "t")]).2.2.1
      "title" (by decide)⟩

/-! ## C4 -/

theorem lookup_eq_none_iff {β : Type} (l : List (String × β)) (k : String) :
    l.lookup k = none ↔ k ∉ l.map Prod.fst := by
  induction l with
  | nil => simp [List.lookup]
  | cons kv t ih =>
    simp only [List.lookup, List.map_cons, List.mem_cons]
    cases hq : k == kv.1
    · have : k ≠ kv.1 := by simpa using hq
      simp [this, ih]
    · have : k = kv.1 := by simpa using hq
      simp [this]

theorem ifsingle_append_sublist {α : Type} (c : Bool) (k : α) (l1 l2 : List α)
    (h : List.Sublist l1 l2) :
    List.Sublist ((if c then [k] else []) ++ l1) (k :: l2) := by
  cases c
  · simpa using List.Sublist.cons k h
  · simpa using List.Sublist.cons₂ k h

theorem ifsingle_sublist {α : Type} (c : Bool) (k : α) :
    List.Sublist (if c then [k] else []) [k] := by
  cases c <;> simp

theorem keys_toApiParams_sublist (params : ModelListParams) :
    List.Sublist ((toApiParams params).map Prod.fst) wireNames := by
  simp only [toApiParams, List.map_append, keys_optEntry, wireNames,
    List.append_assoc]
  refine ifsingle_append_sublist _ _ _ _ ?_
  refine ifsingle_append_sublist _ _ _ _ ?_
  refine ifsingle_append_sublist _ _ _ _ ?_
  refine ifsingle_append_sublist _ _ _ _ ?_
  refine ifsingle_append_sublist _ _ _ _ ?_
  refine ifsingle_append_sublist _ _ _ _ ?_
  refine ifsingle_append_sublist _ _ _ _ ?_
  refine ifsingle_append_sublist _ _ _ _ ?_
  exact ifsingle_sublist _ _

/-- C4: the query-parameter translation of `listModels` is total and
stable.  Each recognized parameter maps to exactly one wire name, an
undefined parameter is absent from the wire query, a key outside the nine
wire names never appears (so unrecognized parameters, modelled by `extra`,
are dropped), the emitted keys are pairwise distinct, and the concrete
object with page size 10 and page number 1 translates to exactly the wire
query with page_size 10 and page_number 1. -/
theorem C4_query_translation (params : ModelListParams) :
    (toApiParams params).lookup "page_size" = params.pageSize.map .num ∧
    (toApiParams params).lookup "page_number" = params.pageNumber.map .num ∧
    (toApiParams params).lookup "title" = params.title.map .str ∧
    (toApiParams params).lookup "tag" =
      params.tag.map (fun v => .arr (v.map .str)) ∧
    (toApiParams params).lookup "self" = params.self.map .bool ∧
    (toApiParams params).lookup "author_id" = params.authorId.map .str ∧
    (toApiParams params).lookup "language" =
      params.language.map (fun v => .arr (v.map .str)) ∧
    (toApiParams params).lookup "title_language" = params.titleLanguage.map .str ∧
    (toApiParams params).lookup "sort_by" = params.sortBy.map .str ∧
    (∀ k, k ∉ wireNames → (toApiParams params).lookup k = none) ∧
    (∀ k, (toApiParams params).lookup k = none ↔
      k ∉ (toApiParams params).map Prod.fst) ∧
    ((toApiParams params).map Prod.fst).Nodup ∧
    toApiParams { pageSize := some 10, pageNumber := some 1 } =
      [("page_size", .num 10), ("page_number", .num 1)] := by
  refine ⟨?_, ?_, ?_, ?_, ?_, ?_, ?_, ?_, ?_, ?_, ?_, ?_, rfl⟩
  · simp [toApiParams, lookup_append, lookup_optEntry_self, lookup_optEntry_ne]
  · simp [toApiParams, lookup_append, lookup_optEntry_self, lookup_optEntry_ne]
  · simp [toApiParams, lookup_append, lookup_optEntry_self, lookup_optEntry_ne]
  · simp [toApiParams, lookup_append, lookup_optEntry_self, lookup_optEntry_ne]
  · simp [toApiParams, lookup_append, lookup_optEntry_self, lookup_optEntry_ne]
  · simp [toApiParams, lookup_append, lookup_optEntry_self, lookup_optEntry_ne]
  · simp [toApiParams, lookup_append, lookup_optEntry_self, lookup_optEntry_ne]
  · simp [toApiParams, lookup_append, lookup_optEntry_self, lookup_optEntry_ne]
  · simp [toApiParams, lookup_append, lookup_optEntry_self, lookup_optEntry_ne]
  · intro k hk
    simp only [wireNames, List.mem_cons, List.not_mem_nil, or_false, not_or] at hk
    obtain ⟨h1, h2, h3, h4, h5, h6, h7, h8, h9⟩ := hk
    simp [toApiParams, lookup_append, lookup_optEntry_ne _ _ _ h1,
      lookup_optEntry_ne _ _ _ h2, lookup_optEntry_ne _ _ _ h3,
      lookup_optEntry_ne _ _ _ h4, lookup_optEntry_ne _ _ _ h5,
      lookup_optEntry_ne _ _ _ h6, lookup_optEntry_ne _ _ _ h7,
      lookup_optEntry_ne _ _ _ h8, lookup_optEntry_ne _ _ _ h9]
  · intro k
    exact lookup_eq_none_iff (toApiParams params) k
  · exact List.Nodup.sublist (keys_toApiParams_sublist params) (by decide)

theorem C4_query_translation_witness :
    (toApiParams { pageSize := some 10, pageNumber := some 1, extra := [("type", .str "tts")] }).lookup "type" = none ∧
    toApiParams { pageSize := some 10, pageNumber := some 1 } =
      [("page_size", .num 10), ("page_number", .num 1)] :=
  ⟨(C4_query_translation { pageSize := some 10, pageNumber := some 1, extra := [("type", .str "tts")] }).2.2.2.2.2.2.2.2.2.1
      "type" (by decide),
    (C4_query_translation {}).2.2.2.2.2.2.2.2.2.2.2.2⟩

/-! ## C5 -/

theorem fromJSON_malformed (v : JValue) (h : wellFormedASR v = false) :
    ASRResponse.fromJSON v = .error (.decodeError "malformed recognition payload") := by
  cases v with
  | obj fields =>
    unfold ASRResponse.fromJSON
    unfold wellFormedASR at h
    cases ht : fields.lookup "text" with
    | none => simp [ht]
    | some tv =>
      cases hd : fields.lookup "duration" with
      | none => cases tv <;> simp [ht, hd]
      | some d =>
        cases hs : fields.lookup "segments" with
        | none => cases tv <;> simp [ht, hd, hs]
        | some sv => cases tv <;> cases sv <;> simp_all
  | undefined => rfl
  | null => rfl
  | bool b => rfl
  | num n => rfl
  | str s => rfl
  | arr es => rfl

/-- C5: an asr call whose inbound payload is malformed does not crash the
call path: it rejects with the decode-failure classification, which carries
no HTTP status and is distinct from each HTTP-status classification. -/
theorem C5_decode_failure (s : Session) (payload : JValue)
    (peer : OutboundRequest → HttpResponse)
    (h2 : is2xx (peer (s.asrRequest payload)).status = true)
    (hmal : wellFormedASR (peer (s.asrRequest payload)).data = false) :
    s.asrCall payload peer = .error (.decodeError "malformed recognition payload") ∧
    (FishError.decodeError "malformed recognition payload").statusOf = none ∧
    (FishError.decodeError "malformed recognition payload").classOf ≠ ErrClass.auth ∧
    (FishError.decodeError "malformed recognition payload").classOf ≠ ErrClass.payment ∧
    (FishError.decodeError "malformed recognition payload").classOf ≠ ErrClass.notFound ∧
    (FishError.decodeError "malformed recognition payload").classOf ≠ ErrClass.generic := by
  refine ⟨?_, rfl, by decide, by decide, by decide, by decide⟩
  simp [Session.asrCall, exchange, interceptResponse, h2, fromJSON_malformed _ hmal]

theorem C5_decode_failure_witness :
    is2xx (malformedPeer ((Session.make "k" "https://api.fish.audio" "d").asrRequest
      .null)).status = true ∧
    wellFormedASR (malformedPeer ((Session.make "k" "https://api.fish.audio" "d").asrRequest
      .null)).data = false ∧
    (Session.make "k" "https://api.fish.audio" "d").asrCall .null malformedPeer =
      .error (.decodeError "malformed recognition payload") :=
  ⟨rfl, rfl,
    (C5_decode_failure (Session.make "k" "https://api.fish.audio" "d") .null
      malformedPeer rfl rfl).1⟩

/-! ## C6 -/

/-- C6: every outbound request of every operation of a client constructed
with (apiKey, baseUrl, developerId) resolves the header Authorization to
Bearer apiKey and the header developer-id to developerId, automatically
from the construction-time identity.  The one operation accepting caller
headers is covered under the stated discipline that callers never bind
these two keys per call; the only state-mutating operation, close, leaves
the identity headers unchanged. -/
theorem C6_identity_headers (apiKey baseUrl developerId : String)
    (payload : JValue) (additionalHeaders : List (String × String))
    (params : ModelListParams) (modelId : String) (checkFreeCredit : Option Bool)
    (hA : additionalHeaders.lookup "Authorization" = none)
    (hD : additionalHeaders.lookup "developer-id" = none) :
    (∀ req ∈ opRequests (Session.make apiKey baseUrl developerId) payload
        additionalHeaders params modelId checkFreeCredit,
      headerLookup req.headers "Authorization" = some ("Bearer " ++ apiKey) ∧
      headerLookup req.headers "developer-id" = some developerId) ∧
    ((Session.make apiKey baseUrl developerId).close.2).defaultHeaders =
      (Session.make apiKey baseUrl developerId).defaultHeaders := by
  refine ⟨?_, rfl⟩
  intro req hreq
  simp only [opRequests, List.mem_cons, List.not_mem_nil, or_false] at hreq
  rcases hreq with rfl | rfl | rfl | rfl | rfl | rfl | rfl | rfl | rfl <;>
    refine ⟨?_, ?_⟩ <;>
    simp [headerLookup, Session.ttsRequest, Session.asrRequest,
      Session.listModelsRequest, Session.getModelRequest,
      Session.createModelRequest, Session.deleteModelRequest,
      Session.updateModelRequest, Session.getApiCreditRequest,
      Session.getPackageRequest, Session.defaultHeaders, Session.make,
      lookup_append, hA, hD, List.lookup]

theorem C6_identity_headers_witness :
    (([] : List (String × String)).lookup "Authorization" = none) ∧
    (([] : List (String × String)).lookup "developer-id" = none) ∧
    (∀ req ∈ opRequests (Session.make "my-key" "https://api.fish.audio" "my-dev")
        .null [] {} "m1" none,
      headerLookup req.headers "Authorization" = some ("Bearer " ++ "my-key") ∧
      headerLookup req.headers "developer-id" = some "my-dev") :=
  ⟨rfl, rfl,
    (C6_identity_headers "my-key" "https://api.fish.audio" "my-dev" .null [] {}
      "m1" none rfl rfl).1⟩

/-! ## C7 -/

/-- C7: encoding is a per-call choice signalled by the content type: the
asr request body is the msgpack-encoded payload and declares the binary
content type, while the tts request body is the JSON payload and declares
the textual content type (the caller-supplied tts headers not binding the
content type themselves). -/
theorem C7_encoding_per_call (s : Session) (payload : JValue)
    (additionalHeaders : List (String × String))
    (hCT : additionalHeaders.lookup "Content-Type" = none) :
    (s.asrRequest payload).body = .msgpackBody payload ∧
    headerLookup (s.asrRequest payload).headers "Content-Type" =
      some "application/msgpack" ∧
    (s.ttsRequest payload additionalHeaders).body = .jsonBody payload ∧
    headerLookup (s.ttsRequest payload additionalHeaders).headers "Content-Type" =
      some "application/json" := by
  refine ⟨rfl, ?_, rfl, ?_⟩
  · simp [headerLookup, Session.asrRequest, List.lookup]
  · simp [headerLookup, Session.ttsRequest, lookup_append, hCT, List.lookup]

theorem C7_encoding_per_call_witness :
    (([] : List (String × String)).lookup "Content-Type" = none) ∧
    ((Session.make "k" "https://api.fish.audio" "d").asrRequest .null).body =
      .msgpackBody .null ∧
    headerLookup ((Session.make "k" "https://api.fish.audio" "d").asrRequest
      .null).headers "Content-Type" = some "application/msgpack" ∧
    ((Session.make "k" "https://api.fish.audio" "d").ttsRequest .null []).body =
      .jsonBody .null ∧
    headerLookup ((Session.make "k" "https://api.fish.audio" "d").ttsRequest
      .null []).headers "Content-Type" = some "application/json" :=
  ⟨rfl,
    (C7_encoding_per_call (Session.make "k" "https://api.fish.audio" "d") .null [] rfl).1,
    (C7_encoding_per_call (Session.make "k" "https://api.fish.audio" "d") .null [] rfl).2.1,
    (C7_encoding_per_call (Session.make "k" "https://api.fish.audio" "d") .null [] rfl).2.2.1,
    (C7_encoding_per_call (Session.make "k" "https://api.fish.audio" "d") .null [] rfl).2.2.2⟩

end FishAudio
